import Mathlib

/-!
Shallow embedding of the customer self-service portal (React SPA with an
in-memory mock API).  The definitions below are translated from the
repository's source: the global store reducer (`AppContext`), the
`FormField` validation molecule, the `Login` page handler, the
`MockApiClient`, and the per-domain data-fetching hooks.  Theorems settle
the spec's claims about them.
-/

namespace Panel

/-- Postal address record (billing/legal address of a user). -/
structure Address where
  id : String
  street : String
  city : String
  state : String
  zipCode : String
  country : String
deriving DecidableEq

/-- User record: identity, contact info, optional addresses, two-factor flag. -/
structure User where
  id : String
  name : String
  email : String
  phone : String
  company : String
  twoFactorEnabled : Bool
  billingAddress : Option Address := none
  legalAddress : Option Address := none
deriving DecidableEq

/-- Notification record: type, title, message, read flag, timestamp, optional action link. -/
structure Notification where
  id : String
  type : String
  title : String
  message : String
  read : Bool
  timestamp : String
  actionUrl : Option String := none
deriving DecidableEq

/-- Service record: id, type, name, status, expiry date, auto-renew flag, and
the optional domain/hosting extras present in the mock payloads. -/
structure Service where
  id : String
  type : String
  name : String
  status : String
  expiryDate : String
  autoRenew : Bool
  nameservers : Option (List String) := none
  locked : Option Bool := none
  planDetails : Option String := none
deriving DecidableEq

/-- One message inside a support ticket thread. -/
structure TicketMessage where
  id : String
  sender : String
  message : String
  timestamp : String
deriving DecidableEq

/-- Support ticket record with its ordered message thread. -/
structure SupportTicket where
  id : String
  category : String
  subject : String
  body : String
  status : String
  priority : String
  createdAt : String
  updatedAt : String
  messages : List TicketMessage
deriving DecidableEq

/-- Invoice record from the billing endpoints. -/
structure Invoice where
  id : String
  number : String
  amount : ℚ
  currency : String
  status : String
  issuedDate : String
  dueDate : String
  pdfUrl : String
  services : List String
deriving DecidableEq

/-- Payment method record from the billing endpoints. -/
structure PaymentMethod where
  id : String
  type : String
  last4 : String
  brand : String
  expiryMonth : Nat
  expiryYear : Nat
  isDefault : Bool
deriving DecidableEq

/-- DNS record as returned by `getDnsRecords`. -/
structure DNSRecord where
  id : String
  type : String
  name : String
  value : String
  ttl : Nat
deriving DecidableEq

/-- Global store state of the `AppContext` reducer. -/
structure AppState where
  currentUser : Option User
  notifications : List Notification
  unreadNotificationCount : Nat
  services : List Service
  supportTickets : List SupportTicket
  loading : Bool
  error : Option String
deriving DecidableEq

/-- Initial store state. -/
def initialState : AppState :=
  { currentUser := none
    notifications := []
    unreadNotificationCount := 0
    services := []
    supportTickets := []
    loading := false
    error := none }

/-- The closed set of reducer actions of the global store. -/
inductive AppAction where
  | SET_USER (payload : User)
  | CLEAR_USER
  | SET_NOTIFICATIONS (payload : List Notification)
  | ADD_NOTIFICATION (payload : Notification)
  | MARK_NOTIFICATION_READ (payload : String)
  | SET_SERVICES (payload : List Service)
  | UPDATE_SERVICE (payload : Service)
  | SET_SUPPORT_TICKETS (payload : List SupportTicket)
  | ADD_SUPPORT_TICKET (payload : SupportTicket)
  | UPDATE_SUPPORT_TICKET (payload : SupportTicket)
  | SET_LOADING (payload : Bool)
  | SET_ERROR (payload : Option String)
deriving DecidableEq

/-- Unread counter recomputed by the notification-mutating reducer branches:
the number of notifications with `read = false`. -/
def countUnread (ns : List Notification) : Nat :=
  (ns.filter (fun n => !n.read)).length

/-- The map applied by the `MARK_NOTIFICATION_READ` branch to each
notification: set `read := true` on the entry whose id matches. -/
def markRead (nid : String) (n : Notification) : Notification :=
  if n.id = nid then { n with read := true } else n

/-- Shallow embedding of `appReducer`: a total pure function from state and
action to the next state, translated branch by branch. -/
def appReducer (state : AppState) (action : AppAction) : AppState :=
  match action with
  | .SET_USER u => { state with currentUser := some u }
  | .CLEAR_USER => { state with currentUser := none }
  | .SET_NOTIFICATIONS ns =>
      { state with notifications := ns, unreadNotificationCount := countUnread ns }
  | .ADD_NOTIFICATION n =>
      let newNotifications := n :: state.notifications
      { state with notifications := newNotifications,
                   unreadNotificationCount := countUnread newNotifications }
  | .MARK_NOTIFICATION_READ nid =>
      let updatedNotifications := state.notifications.map (markRead nid)
      { state with notifications := updatedNotifications,
                   unreadNotificationCount := countUnread updatedNotifications }
  | .SET_SERVICES ss => { state with services := ss }
  | .UPDATE_SERVICE s =>
      { state with services := state.services.map (fun x => if x.id = s.id then s else x) }
  | .SET_SUPPORT_TICKETS ts => { state with supportTickets := ts }
  | .ADD_SUPPORT_TICKET t => { state with supportTickets := t :: state.supportTickets }
  | .UPDATE_SUPPORT_TICKET t =>
      { state with supportTickets := state.supportTickets.map (fun x => if x.id = t.id then t else x) }
  | .SET_LOADING b => { state with loading := b }
  | .SET_ERROR e => { state with error := e }

/-- The store invariant: the cached unread counter equals the number of
notifications with `read = false`. -/
def NotificationInvariant (s : AppState) : Prop :=
  s.unreadNotificationCount = countUnread s.notifications

/-- An example notification used in concrete witnesses. -/
def exampleNotification : Notification :=
  { id := "1", type := "renewal", title := "Domain Renewal Reminder",
    message := "Your domain example.com expires in 21 days",
    read := false, timestamp := "2025-07-25T08:00:00Z",
    actionUrl := some "/services/domains/1" }

/-- C1: every reducer action preserves the unread-count invariant: after any
action applied to a state satisfying the invariant, `unreadNotificationCount`
equals the number of notifications with `read = false`. -/
theorem appReducer_preserves_unread_invariant (s : AppState) (a : AppAction)
    (h : NotificationInvariant s) : NotificationInvariant (appReducer s a) := by
  cases a <;> first | exact h | rfl

/-- Witness for C1 at a concrete state and action. -/
theorem appReducer_preserves_unread_invariant_witness :
    NotificationInvariant initialState ∧
      NotificationInvariant (appReducer initialState (.ADD_NOTIFICATION exampleNotification)) :=
  ⟨rfl, appReducer_preserves_unread_invariant initialState
    (.ADD_NOTIFICATION exampleNotification) rfl⟩

/-- Applying `markRead` twice with the same id is the same as applying it once. -/
theorem markRead_idem (nid : String) (n : Notification) :
    markRead nid (markRead nid n) = markRead nid n := by
  unfold markRead
  by_cases h : n.id = nid <;> simp [h]

/-- C9: `MARK_NOTIFICATION_READ` is idempotent on the whole state; it
preserves the length and order of the notifications list (entry `i` of the
result is `markRead` of entry `i` of the input), and `markRead` preserves
every field except that the read flag of the matched entry becomes true. -/
theorem markNotificationRead_idempotent (s : AppState) (nid : String) :
    appReducer (appReducer s (.MARK_NOTIFICATION_READ nid)) (.MARK_NOTIFICATION_READ nid)
        = appReducer s (.MARK_NOTIFICATION_READ nid)
    ∧ (appReducer s (.MARK_NOTIFICATION_READ nid)).notifications.length
        = s.notifications.length
    ∧ (∀ i : Nat, (appReducer s (.MARK_NOTIFICATION_READ nid)).notifications[i]?
        = (s.notifications[i]?).map (markRead nid))
    ∧ (∀ n : Notification, (markRead nid n).id = n.id ∧ (markRead nid n).type = n.type
        ∧ (markRead nid n).title = n.title ∧ (markRead nid n).message = n.message
        ∧ (markRead nid n).timestamp = n.timestamp
        ∧ (markRead nid n).actionUrl = n.actionUrl
        ∧ (markRead nid n).read = (n.read || n.id == nid)) := by
  have hmap : (s.notifications.map (markRead nid)).map (markRead nid)
      = s.notifications.map (markRead nid) := by
    rw [List.map_map]
    exact List.map_congr_left (fun n _ => markRead_idem nid n)
  refine ⟨?_, ?_, ?_, ?_⟩
  · simp only [appReducer, countUnread]
    rw [hmap]
  · simp [appReducer]
  · intro i
    simp [appReducer]
  · intro n
    unfold markRead
    by_cases h : n.id = nid <;> simp [h]

/-- Canned services payload of `MockApiClient.getServices`. -/
def mockServices : List Service :=
  [{ id := "1", type := "domain", name := "example.com", status := "active",
     expiryDate := "2025-12-15T00:00:00Z", autoRenew := true,
     nameservers := some ["ns1.example.com", "ns2.example.com"], locked := some true },
   { id := "2", type := "domain", name := "mysite.net", status := "active",
     expiryDate := "2025-09-02T00:00:00Z", autoRenew := false,
     nameservers := some ["ns1.provider.com", "ns2.provider.com"], locked := some false },
   { id := "3", type := "hosting", name := "Web Hosting Pro", status := "active",
     expiryDate := "2025-08-28T00:00:00Z", autoRenew := true,
     planDetails := some "Pro Plan - 10GB Storage, Unlimited Bandwidth" },
   { id := "4", type := "ssl", name := "SSL Certificate", status := "active",
     expiryDate := "2025-11-10T00:00:00Z", autoRenew := true,
     planDetails := some "Standard SSL - Protects example.com and www.example.com" }]

/-- A store state holding the canned services, used in concrete witnesses. -/
def mockServicesState : AppState :=
  { initialState with services := mockServices }

/-- Shallow embedding of `useServices.toggleAutoRenew` on the success path:
find the service with the given id, and dispatch `UPDATE_SERVICE` with that
record's auto-renew flag replaced; if the id is absent nothing is dispatched. -/
def toggleAutoRenewStep (state : AppState) (serviceId : String) (autoRenew : Bool) : AppState :=
  match state.services.find? (fun s => s.id == serviceId) with
  | some updatedService =>
      appReducer state (.UPDATE_SERVICE { updatedService with autoRenew := autoRenew })
  | none => state

/-- C4: toggling a service's auto-renew flag preserves the length and order of
the services collection, leaves every record with a different id untouched,
and replaces each record with the given id by the found record with only its
auto-renew flag changed; the rest of the store is untouched. -/
theorem toggleAutoRenew_frame (state : AppState) (serviceId : String) (b : Bool)
    (h : (state.services.find? (fun s => s.id == serviceId)).isSome = true) :
    (toggleAutoRenewStep state serviceId b).services.length = state.services.length
    ∧ (∀ i : Nat, ∀ s : Service, state.services[i]? = some s → s.id ≠ serviceId →
        (toggleAutoRenewStep state serviceId b).services[i]? = some s)
    ∧ (∀ i : Nat, ∀ s : Service, state.services[i]? = some s → s.id = serviceId →
        ∃ f : Service, state.services.find? (fun x => x.id == serviceId) = some f ∧
          (toggleAutoRenewStep state serviceId b).services[i]? = some { f with autoRenew := b })
    ∧ (toggleAutoRenewStep state serviceId b).currentUser = state.currentUser
    ∧ (toggleAutoRenewStep state serviceId b).notifications = state.notifications
    ∧ (toggleAutoRenewStep state serviceId b).supportTickets = state.supportTickets := by
  obtain ⟨f, hf⟩ := Option.isSome_iff_exists.mp h
  have hfid : f.id = serviceId := by
    have := List.find?_some hf
    simpa using this
  simp only [toggleAutoRenewStep, hf]
  refine ⟨by simp [appReducer], ?_, ?_, rfl, rfl, rfl⟩
  · intro i s hs hne
    simp [appReducer, hs, hfid, hne]
  · intro i s hs hid
    exact ⟨f, rfl, by simp [appReducer, hs, hfid, hid]⟩

/-- Witness for C4 at a concrete services collection. -/
theorem toggleAutoRenew_frame_witness :
    (mockServicesState.services.find? (fun s => s.id == "1")).isSome = true
    ∧ (toggleAutoRenewStep mockServicesState "1" false).services.length
        = mockServicesState.services.length :=
  ⟨rfl, (toggleAutoRenew_frame mockServicesState "1" false rfl).1⟩

/-- Input accepted by `createSupportTicket`: category, subject, body and an
optional priority (the empty string standing for an absent, falsy value). -/
structure TicketInput where
  category : String
  subject : String
  body : String
  priority : String := ""
deriving DecidableEq

/-- Shallow embedding of the ticket built by `MockApiClient.createSupportTicket`
on its success path: fresh id, the input fields, status `open`, the input
priority defaulted to `medium`, and a single seeded user message carrying the
ticket body. -/
def createSupportTicketData (ticketData : TicketInput) (newId now : String) : SupportTicket :=
  { id := newId
    category := ticketData.category
    subject := ticketData.subject
    body := ticketData.body
    status := "open"
    priority := if ticketData.priority = "" then "medium" else ticketData.priority
    createdAt := now
    updatedAt := now
    messages := [{ id := "1", sender := "user", message := ticketData.body, timestamp := now }] }

/-- The `addSupportTicket` helper of the store context: it re-stamps id and
timestamps before dispatching `ADD_SUPPORT_TICKET`. -/
def contextNewTicket (t : SupportTicket) (ctxId now : String) : SupportTicket :=
  { t with id := ctxId, createdAt := now, updatedAt := now }

/-- End-to-end success path of `useSupportTickets.createTicket`: the mock API
builds the ticket and the store context prepends it. -/
def createTicketFlow (state : AppState) (input : TicketInput) (serverId ctxId now : String) : AppState :=
  appReducer state
    (.ADD_SUPPORT_TICKET (contextNewTicket (createSupportTicketData input serverId now) ctxId now))

/-- C5: a successful ticket creation prepends exactly one entry to the ticket
collection; the new entry has status `open` and exactly one seeded message
whose text is the ticket body. -/
theorem createSupportTicket_prepends (state : AppState) (input : TicketInput)
    (serverId ctxId now : String) :
    ∃ t : SupportTicket,
      (createTicketFlow state input serverId ctxId now).supportTickets = t :: state.supportTickets
      ∧ t.status = "open"
      ∧ t.messages = [{ id := "1", sender := "user", message := input.body, timestamp := now }]
      ∧ (createTicketFlow state input serverId ctxId now).supportTickets.length
          = state.supportTickets.length + 1 := by
  refine ⟨_, rfl, rfl, rfl, by simp [createTicketFlow, appReducer]⟩

/-- Whitespace test matching the characters stripped by `trim` on the values
the form deals with. -/
def isWhitespaceChar (c : Char) : Bool :=
  c = ' ' || c = '\t' || c = '\n' || c = '\r'

/-- Drop leading whitespace characters from a character list. -/
def dropLeadingWs : List Char → List Char
  | [] => []
  | c :: cs => if isWhitespaceChar c then dropLeadingWs cs else c :: cs

/-- Embedding of the string `trim` used by the required-field check: strip
leading and trailing whitespace. -/
def jsTrim (s : String) : String :=
  ⟨(dropLeadingWs (dropLeadingWs s.data.reverse).reverse)⟩

/-- Validation rule set of `FormField`.  Numeric rules use `0` for an absent
(falsy) value, mirroring how the source skips a rule whose value is falsy. -/
structure ValidationRules where
  required : Bool := false
  minLength : Nat := 0
  maxLength : Nat := 0
  pattern : Option (String → Bool) := none
  custom : Option (String → Option String) := none

/-- The display name used in validation messages: the label when present
(non-empty), otherwise the field name. -/
def labelOrName (label name : String) : String :=
  if label = "" then name else label

/-- Pattern rule: it fires only when the value is non-empty (truthy) and the
pattern does not match. -/
def patternFails (pattern : Option (String → Bool)) (inputValue : String) : Bool :=
  match pattern with
  | some p => if inputValue = "" then false else !(p inputValue)
  | none => false

/-- Custom rule: return the custom message when the predicate produces one,
otherwise the empty string. -/
def customMessage (custom : Option (String → Option String)) (inputValue : String) : String :=
  match custom with
  | some c =>
      match c inputValue with
      | some e => e
      | none => ""
  | none => ""

/-- Shallow embedding of `FormField.validate`: the rules are checked in the
source's order, short-circuiting on the first failure; the empty string means
no error. -/
def validate (vr : Option ValidationRules) (label name inputValue : String) : String :=
  match vr with
  | none => ""
  | some rules =>
      if rules.required ∧ jsTrim inputValue = "" then
        labelOrName label name ++ " is required"
      else if rules.minLength ≠ 0 ∧ inputValue.length < rules.minLength then
        labelOrName label name ++ " must be at least "
          ++ toString rules.minLength ++ " characters"
      else if rules.maxLength ≠ 0 ∧ rules.maxLength < inputValue.length then
        labelOrName label name ++ " must be no more than "
          ++ toString rules.maxLength ++ " characters"
      else if patternFails rules.pattern inputValue then
        labelOrName label name ++ " format is invalid"
      else customMessage rules.custom inputValue

/-- Local component state of `FormField`: the internal validation error and
the touched flag. -/
structure FieldState where
  internalError : String
  touched : Bool
deriving DecidableEq

/-- Initial `FormField` state: no internal error, not yet touched. -/
def initialFieldState : FieldState :=
  { internalError := "", touched := false }

/-- Events a `FormField` reacts to: a value change or a blur. -/
inductive FieldEvent where
  | change (newValue : String)
  | blur
deriving DecidableEq

/-- Shallow embedding of the `FormField` event handlers, acting on the pair
of the current value (held by the parent) and the local field state:
`handleChange` revalidates only once touched; `handleBlur` marks the field
touched and validates the current value. -/
def fieldStep (vr : Option ValidationRules) (label name : String) :
    String × FieldState → FieldEvent → String × FieldState
  | (_, fs), .change newValue =>
      (newValue,
        if fs.touched then { fs with internalError := validate vr label name newValue } else fs)
  | (value, _), .blur =>
      (value, { internalError := validate vr label name value, touched := true })

/-- The error `FormField` displays: an external error takes precedence, and
the internal validation error is shown only once the field is touched. -/
def displayedError (externalError : String) (fs : FieldState) : String :=
  if externalError ≠ "" then externalError
  else if fs.touched then fs.internalError
  else ""

/-- Change events leave the local field state of an untouched field unchanged. -/
theorem foldl_changes_keep_untouched (vr : Option ValidationRules) (label name : String) :
    ∀ (events : List FieldEvent) (v0 : String) (fs : FieldState),
      fs.touched = false → (∀ e ∈ events, e ≠ FieldEvent.blur) →
      (List.foldl (fieldStep vr label name) (v0, fs) events).2 = fs := by
  intro events
  induction events with
  | nil => intro v0 fs _ _; rfl
  | cons e es ih =>
      intro v0 fs hfs hall
      cases e with
      | change nv =>
          have hstep : fieldStep vr label name (v0, fs) (.change nv) = (nv, fs) := by
            simp [fieldStep, hfs]
          rw [List.foldl_cons, hstep]
          exact ih nv fs hfs (fun e he => hall e (List.mem_cons_of_mem _ he))
      | blur =>
          exact absurd rfl (hall .blur (List.mem_cons_self _ _))

/-- C2: with `required := true`, validating a value whose trim is empty yields
the "is required" message; before the first blur no validation error is
displayed whatever change events occur; and after a blur on such a value the
"is required" message is the displayed error. -/
theorem formField_required_validation :
    (∀ (rules : ValidationRules) (label name v : String), rules.required = true →
        jsTrim v = "" →
        validate (some rules) label name v = labelOrName label name ++ " is required")
    ∧ (∀ (vr : Option ValidationRules) (label name v0 : String) (events : List FieldEvent),
        (∀ e ∈ events, e ≠ FieldEvent.blur) →
        displayedError ""
          (List.foldl (fieldStep vr label name) (v0, initialFieldState) events).2 = "")
    ∧ (∀ (rules : ValidationRules) (label name value : String) (fs : FieldState),
        rules.required = true → jsTrim value = "" →
        displayedError "" (fieldStep (some rules) label name (value, fs) FieldEvent.blur).2
          = labelOrName label name ++ " is required") := by
  refine ⟨?_, ?_, ?_⟩
  · intro rules label name v hreq htrim
    simp [validate, hreq, htrim]
  · intro vr label name v0 events hall
    rw [foldl_changes_keep_untouched vr label name events v0 initialFieldState rfl hall]
    rfl
  · intro rules label name value fs hreq htrim
    simp [fieldStep, displayedError, validate, hreq, htrim]

/-- Witness for C2 at concrete rules, values and event lists. -/
theorem formField_required_validation_witness :
    validate (some { required := true }) "Email" "email" " "
      = labelOrName "Email" "email" ++ " is required"
    ∧ displayedError ""
        (List.foldl (fieldStep (some { required := true }) "Email" "email")
          ("", initialFieldState) [FieldEvent.change "x", FieldEvent.change ""]).2 = ""
    ∧ displayedError ""
        (fieldStep (some { required := true }) "Email" "email"
          (" ", initialFieldState) FieldEvent.blur).2
      = labelOrName "Email" "email" ++ " is required" :=
  ⟨formField_required_validation.1 { required := true } "Email" "email" " " rfl (by decide),
   formField_required_validation.2.1 (some { required := true }) "Email" "email" ""
     [FieldEvent.change "x", FieldEvent.change ""] (by decide),
   formField_required_validation.2.2 { required := true } "Email" "email" " "
     initialFieldState rfl (by decide)⟩

/-- C10: a rule set with a pattern but no `required` and no `minLength`
produces no error on the empty value (the pattern rule is skipped for empty
input), and after a blur on the empty value no error is displayed. -/
theorem pattern_skipped_on_empty_value (p : String → Bool) (maxLen : Nat)
    (label name : String) (fs : FieldState) :
    validate
      (some { required := false, minLength := 0, maxLength := maxLen,
              pattern := some p, custom := none }) label name "" = ""
    ∧ displayedError ""
        (fieldStep
          (some { required := false, minLength := 0, maxLength := maxLen,
                  pattern := some p, custom := none })
          label name ("", fs) FieldEvent.blur).2 = "" := by
  constructor <;>
    simp [validate, fieldStep, displayedError, patternFails, customMessage]

/-- Random-failure predicate of the mock client: a uniform draw `r` in
`[0, 1)` triggers the error path when it falls below the configured chance. -/
def shouldSimulateError (r chance : ℚ) : Bool :=
  decide (r < chance)

/-- Shape of a value returned by a mock API operation: a success flag with
optional data, an optional message and a (possibly empty) error list. -/
structure ApiResponse (α : Type) where
  success : Bool
  data : Option α := none
  message : Option String := none
  errors : List String := []
deriving DecidableEq

/-- Payload of a successful mock login: a token and the user record. -/
structure LoginData where
  token : String
  user : User
deriving DecidableEq

/-- The user record the `Login` page builds on successful credentials. -/
def loginMockUser : User :=
  { id := "1", name := "John Doe", email := "john.doe@example.com",
    phone := "+1 (555) 123-4567", company := "Example Corp",
    twoFactorEnabled := true,
    billingAddress := some { id := "1", street := "123 Main St", city := "New York",
                             state := "NY", zipCode := "10001", country := "US" } }

/-- The user record returned by `MockApiClient.login` (no addresses). -/
def mockLoginUser : User :=
  { id := "1", name := "John Doe", email := "john.doe@example.com",
    phone := "+1 (555) 123-4567", company := "Example Corp",
    twoFactorEnabled := true }

/-- Outcome of the `Login` page submit handler: the user written to the
store, the route navigated to, and the error banner text. -/
structure LoginOutcome where
  user : Option User
  route : Option String
  errorMsg : String
deriving DecidableEq

/-- Shallow embedding of `Login.handleLogin`: the hard-coded credential check
of the page, setting the user and navigating on success, or setting the error
banner otherwise. -/
def handleLogin (email password : String) : LoginOutcome :=
  if email = "john.doe@example.com" ∧ password = "password123" then
    { user := some loginMockUser, route := some "/dashboard", errorMsg := "" }
  else
    { user := none, route := none,
      errorMsg := "Invalid email or password. Please try again." }

/-- Shallow embedding of `MockApiClient.login`, parameterized by the failure
draw `r` and the timestamp used in the token. -/
def loginModel (email password : String) (nowMs : Nat) (r : ℚ) :
    Except String (ApiResponse LoginData) :=
  if shouldSimulateError r (1/20) then
    .error "Network error. Please try again."
  else if email = "john.doe@example.com" ∧ password = "password123" then
    .ok { success := true,
          data := some { token := "mock-jwt-token-" ++ toString nowMs,
                         user := mockLoginUser } }
  else
    .ok { success := false, message := some "Invalid email or password",
          errors := ["Invalid credentials"] }

/-- C3: the demo credential pair makes the login page set the user and route
to the dashboard; every other pair yields the invalid-credentials banner
(whose text starts with "Invalid email or password"); and the mock client,
when its failure draw does not fire, answers every other pair with a
`success := false` response carrying the "Invalid email or password" message. -/
theorem login_credentials (email password : String) :
    (email = "john.doe@example.com" ∧ password = "password123" →
      (handleLogin email password).user = some loginMockUser
      ∧ (handleLogin email password).route = some "/dashboard"
      ∧ (handleLogin email password).errorMsg = "")
    ∧ (¬(email = "john.doe@example.com" ∧ password = "password123") →
      (handleLogin email password).user = none
      ∧ (handleLogin email password).route = none
      ∧ (handleLogin email password).errorMsg
          = "Invalid email or password. Please try again."
      ∧ ("Invalid email or password".data.isPrefixOf
          (handleLogin email password).errorMsg.data) = true)
    ∧ (∀ (nowMs : Nat) (r : ℚ), ¬(r < 1/20) →
        ¬(email = "john.doe@example.com" ∧ password = "password123") →
        loginModel email password nowMs r
          = .ok { success := false, message := some "Invalid email or password",
                  errors := ["Invalid credentials"] }) := by
  refine ⟨?_, ?_, ?_⟩
  · intro h
    simp [handleLogin, h.1, h.2]
  · intro h
    refine ⟨by simp [handleLogin, h], by simp [handleLogin, h],
      by simp [handleLogin, h], ?_⟩
    simp only [handleLogin, if_neg h]
    decide
  · intro nowMs r hr h
    have hse : shouldSimulateError r (1/20) = false := by
      unfold shouldSimulateError
      exact decide_eq_false hr
    unfold loginModel
    rw [hse]
    simp [h]

/-- Witness for C3 at the demo credentials and at a rejected pair. -/
theorem login_credentials_witness :
    (handleLogin "john.doe@example.com" "password123").route = some "/dashboard"
    ∧ ¬("a@b.c" = "john.doe@example.com" ∧ "x" = "password123")
    ∧ (handleLogin "a@b.c" "x").errorMsg
        = "Invalid email or password. Please try again."
    ∧ ¬((1 : ℚ) < 1/20)
    ∧ loginModel "a@b.c" "x" 0 1
        = .ok { success := false, message := some "Invalid email or password",
                errors := ["Invalid credentials"] } :=
  ⟨((login_credentials "john.doe@example.com" "password123").1 ⟨rfl, rfl⟩).2.1,
   by decide,
   ((login_credentials "a@b.c" "x").2.1 (by decide)).2.2.1,
   by norm_num,
   (login_credentials "a@b.c" "x").2.2 0 1 (by norm_num) (by decide)⟩

/-- Canned profile payload of `MockApiClient.getProfile`. -/
def mockProfileUser : User :=
  { id := "1", name := "John Doe", email := "john.doe@example.com",
    phone := "+1 (555) 123-4567", company := "Example Corp",
    twoFactorEnabled := true,
    billingAddress := some { id := "1", street := "123 Main St", city := "New York",
                             state := "NY", zipCode := "10001", country := "US" },
    legalAddress := some { id := "2", street := "123 Main St", city := "New York",
                           state := "NY", zipCode := "10001", country := "US" } }

/-- Canned tickets payload of `MockApiClient.getSupportTickets`. -/
def mockTickets : List SupportTicket :=
  [{ id := "12345", category := "Technical", subject := "DNS configuration issue",
     body := "Having trouble configuring DNS records for my domain.",
     status := "open", priority := "medium",
     createdAt := "2025-07-24T10:30:00Z", updatedAt := "2025-07-24T14:15:00Z",
     messages :=
       [{ id := "1", sender := "user",
          message := "Having trouble configuring DNS records for my domain.",
          timestamp := "2025-07-24T10:30:00Z" },
        { id := "2", sender := "support",
          message := "Thank you for contacting us. We\x27ll help you with the DNS configuration.",
          timestamp := "2025-07-24T14:15:00Z" }] },
   { id := "12346", category := "Billing", subject := "Payment method update",
     body := "Need to update my credit card information.",
     status := "resolved", priority := "low",
     createdAt := "2025-07-22T09:00:00Z", updatedAt := "2025-07-23T16:30:00Z",
     messages :=
       [{ id := "3", sender := "user",
          message := "Need to update my credit card information.",
          timestamp := "2025-07-22T09:00:00Z" },
        { id := "4", sender := "support",
          message := "I\x27ve sent you a secure link to update your payment method.",
          timestamp := "2025-07-23T16:30:00Z" }] }]

/-- Canned notifications payload of `MockApiClient.getNotifications`. -/
def mockNotifications : List Notification :=
  [{ id := "1", type := "renewal", title := "Domain Renewal Reminder",
     message := "Your domain example.com expires in 21 days",
     read := false, timestamp := "2025-07-25T08:00:00Z",
     actionUrl := some "/services/domains/1" },
   { id := "2", type := "system", title := "Support Ticket Update",
     message := "Your support ticket #12345 has been updated",
     read := false, timestamp := "2025-07-24T14:15:00Z",
     actionUrl := some "/support/tickets/12345" },
   { id := "3", type := "payment", title := "Payment Processed",
     message := "Payment of $89.99 has been processed successfully",
     read := true, timestamp := "2025-07-20T12:00:00Z" }]

/-- Canned invoices payload of `MockApiClient.getInvoices`. -/
def mockInvoices : List Invoice :=
  [{ id := "INV-2025-001", number := "INV-2025-001", amount := 8999/100,
     currency := "USD", status := "paid",
     issuedDate := "2025-07-01T00:00:00Z", dueDate := "2025-07-15T00:00:00Z",
     pdfUrl := "/api/invoices/INV-2025-001.pdf",
     services := ["example.com - Domain Registration", "Web Hosting Pro"] },
   { id := "INV-2025-002", number := "INV-2025-002", amount := 12999/100,
     currency := "USD", status := "pending",
     issuedDate := "2025-07-20T00:00:00Z", dueDate := "2025-08-05T00:00:00Z",
     pdfUrl := "/api/invoices/INV-2025-002.pdf",
     services := ["SSL Certificate", "Domain Transfer"] }]

/-- Canned payment methods payload of `MockApiClient.getPaymentMethods`. -/
def mockPaymentMethods : List PaymentMethod :=
  [{ id := "1", type := "credit_card", last4 := "4242", brand := "Visa",
     expiryMonth := 12, expiryYear := 2027, isDefault := true },
   { id := "2", type := "credit_card", last4 := "5555", brand := "Mastercard",
     expiryMonth := 8, expiryYear := 2026, isDefault := false }]

/-- Canned DNS records payload of `MockApiClient.getDnsRecords`. -/
def mockDnsRecords : List DNSRecord :=
  [{ id := "1", type := "A", name := "@", value := "192.168.1.1", ttl := 3600 },
   { id := "2", type := "CNAME", name := "www", value := "example.com", ttl := 3600 },
   { id := "3", type := "MX", name := "@", value := "10 mail.example.com", ttl := 3600 }]

/-- Embedding of `MockApiClient.logout`: always a success value. -/
def logoutModel : Except String (ApiResponse Unit) :=
  .ok { success := true, message := some "Logged out successfully" }

/-- Embedding of `MockApiClient.getProfile` at failure draw `r`. -/
def getProfileModel (r : ℚ) : Except String (ApiResponse User) :=
  if shouldSimulateError r (1/10) then .error "Failed to load profile"
  else .ok { success := true, data := some mockProfileUser }

/-- Embedding of `MockApiClient.updateProfile` at failure draw `r`. -/
def updateProfileModel (profileData : User) (r : ℚ) : Except String (ApiResponse User) :=
  if shouldSimulateError r (1/10) then .error "Failed to update profile"
  else .ok { success := true, data := some { profileData with id := "1" },
             message := some "Profile updated successfully" }

/-- Embedding of `MockApiClient.getServices` with a configurable failure
chance, at failure draw `r`. -/
def getServicesModelWith (chance r : ℚ) : Except String (ApiResponse (List Service)) :=
  if shouldSimulateError r chance then .error "Failed to load services"
  else .ok { success := true, data := some mockServices }

/-- Embedding of `MockApiClient.getServices` at its default failure chance. -/
def getServicesModel (r : ℚ) : Except String (ApiResponse (List Service)) :=
  getServicesModelWith (1/10) r

/-- Payload of a successful `toggleAutoRenew` call. -/
structure ToggleData where
  id : String
  autoRenew : Bool
  updatedAt : String
deriving DecidableEq

/-- Embedding of `MockApiClient.toggleAutoRenew` at failure draw `r`. -/
def toggleAutoRenewModel (serviceId : String) (autoRenew : Bool) (now : String) (r : ℚ) :
    Except String (ApiResponse ToggleData) :=
  if shouldSimulateError r (1/10) then .error "Failed to update auto-renewal setting"
  else .ok { success := true,
             data := some { id := serviceId, autoRenew := autoRenew, updatedAt := now },
             message := some ("Auto-renewal "
               ++ (if autoRenew then "enabled" else "disabled") ++ " successfully") }

/-- Embedding of `MockApiClient.getSupportTickets` at failure draw `r`. -/
def getSupportTicketsModel (r : ℚ) : Except String (ApiResponse (List SupportTicket)) :=
  if shouldSimulateError r (1/10) then .error "Failed to load support tickets"
  else .ok { success := true, data := some mockTickets }

/-- Embedding of `MockApiClient.createSupportTicket` at failure draw `r`. -/
def createSupportTicketModel (ticketData : TicketInput) (newId now : String) (r : ℚ) :
    Except String (ApiResponse SupportTicket) :=
  if shouldSimulateError r (1/10) then .error "Failed to create support ticket"
  else .ok { success := true, data := some (createSupportTicketData ticketData newId now),
             message := some "Support ticket created successfully" }

/-- Embedding of `MockApiClient.getNotifications` at failure draw `r`. -/
def getNotificationsModel (r : ℚ) : Except String (ApiResponse (List Notification)) :=
  if shouldSimulateError r (1/10) then .error "Failed to load notifications"
  else .ok { success := true, data := some mockNotifications }

/-- Payload of a successful `markNotificationRead` call. -/
structure MarkReadData where
  id : String
  read : Bool
deriving DecidableEq

/-- Embedding of `MockApiClient.markNotificationRead`: always a success value. -/
def markNotificationReadModel (notificationId : String) :
    Except String (ApiResponse MarkReadData) :=
  .ok { success := true, data := some { id := notificationId, read := true },
        message := some "Notification marked as read" }

/-- Embedding of `MockApiClient.getInvoices` at failure draw `r`. -/
def getInvoicesModel (r : ℚ) : Except String (ApiResponse (List Invoice)) :=
  if shouldSimulateError r (1/10) then .error "Failed to load invoices"
  else .ok { success := true, data := some mockInvoices }

/-- Embedding of `MockApiClient.getPaymentMethods` at failure draw `r`. -/
def getPaymentMethodsModel (r : ℚ) : Except String (ApiResponse (List PaymentMethod)) :=
  if shouldSimulateError r (1/10) then .error "Failed to load payment methods"
  else .ok { success := true, data := some mockPaymentMethods }

/-- Embedding of `MockApiClient.getDnsRecords` at failure draw `r` (the domain
id argument is unused by the source). -/
def getDnsRecordsModel (_domainId : String) (r : ℚ) :
    Except String (ApiResponse (List DNSRecord)) :=
  if shouldSimulateError r (1/10) then .error "Failed to load DNS records"
  else .ok { success := true, data := some mockDnsRecords }

/-- Local state of a data-fetching hook after a load completes: the loading
flag (cleared in the `finally`) and the error string. -/
structure HookState where
  loading : Bool
  error : Option String
deriving DecidableEq

/-- Embedding of `useProfile.loadProfile` applied to the outcome of the mock
call: on success the user is written to the store, on a `success:false`
response the fixed error string is set, on a thrown error its message is set. -/
def loadProfileRun (st : AppState) (res : Except String (ApiResponse User)) :
    AppState × HookState :=
  match res with
  | .ok resp =>
      if resp.success then
        (appReducer st (.SET_USER (resp.data.getD mockProfileUser)),
          { loading := false, error := none })
      else (st, { loading := false, error := some "Failed to load profile" })
  | .error m => (st, { loading := false, error := some m })

/-- Embedding of `useServices.loadServices` applied to the outcome of the
mock call. -/
def loadServicesRun (st : AppState) (res : Except String (ApiResponse (List Service))) :
    AppState × HookState :=
  match res with
  | .ok resp =>
      if resp.success then
        (appReducer st (.SET_SERVICES (resp.data.getD [])),
          { loading := false, error := none })
      else (st, { loading := false, error := some "Failed to load services" })
  | .error m => (st, { loading := false, error := some m })

/-- Embedding of `useSupportTickets.loadTickets` applied to the outcome of
the mock call. -/
def loadTicketsRun (st : AppState) (res : Except String (ApiResponse (List SupportTicket))) :
    AppState × HookState :=
  match res with
  | .ok resp =>
      if resp.success then
        (appReducer st (.SET_SUPPORT_TICKETS (resp.data.getD [])),
          { loading := false, error := none })
      else (st, { loading := false, error := some "Failed to load support tickets" })
  | .error m => (st, { loading := false, error := some m })

/-- Embedding of `useNotifications.loadNotifications` applied to the outcome
of the mock call. -/
def loadNotificationsRun (st : AppState) (res : Except String (ApiResponse (List Notification))) :
    AppState × HookState :=
  match res with
  | .ok resp =>
      if resp.success then
        (appReducer st (.SET_NOTIFICATIONS (resp.data.getD [])),
          { loading := false, error := none })
      else (st, { loading := false, error := some "Failed to load notifications" })
  | .error m => (st, { loading := false, error := some m })

/-- Local state of `useBilling`: invoices and payment methods. -/
structure BillingState where
  invoices : List Invoice
  paymentMethods : List PaymentMethod
deriving DecidableEq

/-- Embedding of `useBilling.loadInvoices` applied to the outcome of the mock
call. -/
def loadInvoicesRun (bs : BillingState) (res : Except String (ApiResponse (List Invoice))) :
    BillingState × HookState :=
  match res with
  | .ok resp =>
      if resp.success then
        ({ bs with invoices := resp.data.getD [] }, { loading := false, error := none })
      else (bs, { loading := false, error := some "Failed to load invoices" })
  | .error m => (bs, { loading := false, error := some m })

/-- Embedding of `useBilling.loadPaymentMethods` applied to the outcome of
the mock call. -/
def loadPaymentMethodsRun (bs : BillingState)
    (res : Except String (ApiResponse (List PaymentMethod))) :
    BillingState × HookState :=
  match res with
  | .ok resp =>
      if resp.success then
        ({ bs with paymentMethods := resp.data.getD [] }, { loading := false, error := none })
      else (bs, { loading := false, error := some "Failed to load payment methods" })
  | .error m => (bs, { loading := false, error := some m })

/-- Embedding of `useDNS.loadDnsRecords` applied to the outcome of the mock
call. -/
def loadDnsRecordsRun (records : List DNSRecord)
    (res : Except String (ApiResponse (List DNSRecord))) :
    List DNSRecord × HookState :=
  match res with
  | .ok resp =>
      if resp.success then
        (resp.data.getD [], { loading := false, error := none })
      else (records, { loading := false, error := some "Failed to load DNS records" })
  | .error m => (records, { loading := false, error := some m })

/-- C6: with the failure chance configured to `1`, every draw in `[0, 1)`
makes `getServices` take its error path, so the services hook leaves the
store unchanged, records the failure message and clears the loading flag. -/
theorem failure_chance_one_always_errors (r : ℚ) (h0 : 0 ≤ r) (h1 : r < 1) (st : AppState) :
    getServicesModelWith 1 r = .error "Failed to load services"
    ∧ (loadServicesRun st (getServicesModelWith 1 r)).1 = st
    ∧ (loadServicesRun st (getServicesModelWith 1 r)).2.error = some "Failed to load services"
    ∧ (loadServicesRun st (getServicesModelWith 1 r)).2.loading = false := by
  have hse : shouldSimulateError r 1 = true := by
    unfold shouldSimulateError
    exact decide_eq_true h1
  have hres : getServicesModelWith 1 r = .error "Failed to load services" := by
    unfold getServicesModelWith
    rw [hse]
    rfl
  exact ⟨hres, by rw [hres]; rfl, by rw [hres]; rfl, by rw [hres]; rfl⟩

/-- Witness for C6 at the concrete draw `0`. -/
theorem failure_chance_one_always_errors_witness :
    (0 : ℚ) ≤ 0 ∧ (0 : ℚ) < 1
    ∧ getServicesModelWith 1 0 = .error "Failed to load services"
    ∧ (loadServicesRun mockServicesState (getServicesModelWith 1 0)).2.error
        = some "Failed to load services" :=
  ⟨le_refl 0, zero_lt_one,
   (failure_chance_one_always_errors 0 (le_refl 0) zero_lt_one mockServicesState).1,
   (failure_chance_one_always_errors 0 (le_refl 0) zero_lt_one mockServicesState).2.2.1⟩

/-- A returned failure response: `success := false` with the given data,
message and error list. -/
def failureResp {α : Type} (d : Option α) (mm : Option String) (es : List String) :
    ApiResponse α :=
  { success := false, data := d, message := mm, errors := es }

/-- C7: every data-fetching hook, on a thrown mock failure and on a
`success:false` response alike, leaves its data (store or local collections)
exactly as it was, sets its error string and clears its loading flag. -/
theorem hooks_failure_preserves_data
    (st : AppState) (bs : BillingState) (recs : List DNSRecord) (m : String)
    (du : Option User) (ds : Option (List Service)) (dt : Option (List SupportTicket))
    (dn : Option (List Notification)) (di : Option (List Invoice))
    (dp : Option (List PaymentMethod)) (dd : Option (List DNSRecord))
    (mm : Option String) (es : List String) :
    ((loadProfileRun st (.error m)).1 = st
      ∧ (loadProfileRun st (.error m)).2.error = some m
      ∧ (loadProfileRun st (.error m)).2.loading = false
      ∧ (loadProfileRun st (.ok (failureResp du mm es))).1 = st
      ∧ (loadProfileRun st (.ok (failureResp du mm es))).2.error
          = some "Failed to load profile"
      ∧ (loadProfileRun st (.ok (failureResp du mm es))).2.loading = false)
    ∧ ((loadServicesRun st (.error m)).1 = st
      ∧ (loadServicesRun st (.error m)).2.error = some m
      ∧ (loadServicesRun st (.error m)).2.loading = false
      ∧ (loadServicesRun st (.ok (failureResp ds mm es))).1 = st
      ∧ (loadServicesRun st (.ok (failureResp ds mm es))).2.error
          = some "Failed to load services"
      ∧ (loadServicesRun st (.ok (failureResp ds mm es))).2.loading = false)
    ∧ ((loadTicketsRun st (.error m)).1 = st
      ∧ (loadTicketsRun st (.error m)).2.error = some m
      ∧ (loadTicketsRun st (.error m)).2.loading = false
      ∧ (loadTicketsRun st (.ok (failureResp dt mm es))).1 = st
      ∧ (loadTicketsRun st (.ok (failureResp dt mm es))).2.error
          = some "Failed to load support tickets"
      ∧ (loadTicketsRun st (.ok (failureResp dt mm es))).2.loading = false)
    ∧ ((loadNotificationsRun st (.error m)).1 = st
      ∧ (loadNotificationsRun st (.error m)).2.error = some m
      ∧ (loadNotificationsRun st (.error m)).2.loading = false
      ∧ (loadNotificationsRun st (.ok (failureResp dn mm es))).1 = st
      ∧ (loadNotificationsRun st (.ok (failureResp dn mm es))).2.error
          = some "Failed to load notifications"
      ∧ (loadNotificationsRun st (.ok (failureResp dn mm es))).2.loading = false)
    ∧ ((loadInvoicesRun bs (.error m)).1 = bs
      ∧ (loadInvoicesRun bs (.error m)).2.error = some m
      ∧ (loadInvoicesRun bs (.error m)).2.loading = false
      ∧ (loadInvoicesRun bs (.ok (failureResp di mm es))).1 = bs
      ∧ (loadInvoicesRun bs (.ok (failureResp di mm es))).2.error
          = some "Failed to load invoices"
      ∧ (loadInvoicesRun bs (.ok (failureResp di mm es))).2.loading = false)
    ∧ ((loadPaymentMethodsRun bs (.error m)).1 = bs
      ∧ (loadPaymentMethodsRun bs (.error m)).2.error = some m
      ∧ (loadPaymentMethodsRun bs (.error m)).2.loading = false
      ∧ (loadPaymentMethodsRun bs (.ok (failureResp dp mm es))).1 = bs
      ∧ (loadPaymentMethodsRun bs (.ok (failureResp dp mm es))).2.error
          = some "Failed to load payment methods"
      ∧ (loadPaymentMethodsRun bs (.ok (failureResp dp mm es))).2.loading = false)
    ∧ ((loadDnsRecordsRun recs (.error m)).1 = recs
      ∧ (loadDnsRecordsRun recs (.error m)).2.error = some m
      ∧ (loadDnsRecordsRun recs (.error m)).2.loading = false
      ∧ (loadDnsRecordsRun recs (.ok (failureResp dd mm es))).1 = recs
      ∧ (loadDnsRecordsRun recs (.ok (failureResp dd mm es))).2.error
          = some "Failed to load DNS records"
      ∧ (loadDnsRecordsRun recs (.ok (failureResp dd mm es))).2.loading = false) := by
  repeat' apply And.intro
  all_goals rfl

/-- Truth test for whether a mock outcome was delivered as a returned value
(as opposed to a thrown error). -/
def isReturnedValue {α : Type} : Except String (ApiResponse α) → Bool
  | .ok _ => true
  | .error _ => false

/-- Counterexample to C8 as stated: at failure draw `0`, `getProfile` does
not return a `{success, ...}` value at all; the failure is a thrown error. -/
theorem mockApi_failures_are_thrown_counterexample :
    getProfileModel 0 = .error "Failed to load profile"
    ∧ isReturnedValue (getProfileModel 0) = false := by
  have hse : shouldSimulateError 0 (1/10) = true := by
    unfold shouldSimulateError
    exact decide_eq_true (by norm_num)
  have hres : getProfileModel 0 = .error "Failed to load profile" := by
    unfold getProfileModel
    rw [hse]
    rfl
  exact ⟨hres, by rw [hres]; rfl⟩

/-- Shape predicate for the amended C8: a mock outcome is either a returned
response (success, or failure with a message and a non-empty error list) or a
thrown error with a non-empty message. -/
def WellShapedResult {α : Type} : Except String (ApiResponse α) → Prop
  | .ok resp => resp.success = true
      ∨ (resp.success = false ∧ resp.message.isSome = true ∧ resp.errors ≠ [])
  | .error em => em ≠ ""

/-- A one-failure-draw endpoint is well shaped when its error message is
non-empty and its success payload has `success := true`. -/
theorem wellShapedResult_ite {α : Type} (c : Bool) (em : String) (resp : ApiResponse α)
    (hm : em ≠ "") (hs : resp.success = true) :
    WellShapedResult (if c then (Except.error em : Except String (ApiResponse α))
      else Except.ok resp) := by
  cases c
  · exact Or.inl hs
  · exact hm

/-- C8 (amended): every mock API operation, at every failure draw and every
argument, either returns a response value of the documented shape (success,
or `success:false` with message and errors) or throws an error carrying a
non-empty message. -/
theorem mockApi_result_shape (email password : String) (nowMs : Nat) (p : User)
    (serviceId : String) (b : Bool) (now : String) (input : TicketInput)
    (newId nid domainId : String) (r : ℚ) :
    WellShapedResult (loginModel email password nowMs r)
    ∧ WellShapedResult logoutModel
    ∧ WellShapedResult (getProfileModel r)
    ∧ WellShapedResult (updateProfileModel p r)
    ∧ WellShapedResult (getServicesModel r)
    ∧ WellShapedResult (toggleAutoRenewModel serviceId b now r)
    ∧ WellShapedResult (getSupportTicketsModel r)
    ∧ WellShapedResult (createSupportTicketModel input newId now r)
    ∧ WellShapedResult (getNotificationsModel r)
    ∧ WellShapedResult (markNotificationReadModel nid)
    ∧ WellShapedResult (getInvoicesModel r)
    ∧ WellShapedResult (getPaymentMethodsModel r)
    ∧ WellShapedResult (getDnsRecordsModel domainId r) := by
  refine ⟨?_, Or.inl rfl, ?_, ?_, ?_, ?_, ?_, ?_, ?_, Or.inl rfl, ?_, ?_, ?_⟩
  · unfold loginModel
    rcases Bool.eq_false_or_eq_true (shouldSimulateError r (1/20)) with hse | hse
    · rw [hse]
      show ("Network error. Please try again." : String) ≠ ""
      decide
    · rw [hse]
      by_cases hc : email = "john.doe@example.com" ∧ password = "password123"
      · rw [if_neg (by simp), if_pos hc]
        exact Or.inl rfl
      · rw [if_neg (by simp), if_neg hc]
        exact Or.inr ⟨rfl, rfl, by simp⟩
  · exact wellShapedResult_ite _ _ _ (by decide) rfl
  · exact wellShapedResult_ite _ _ _ (by decide) rfl
  · exact wellShapedResult_ite _ _ _ (by decide) rfl
  · exact wellShapedResult_ite _ _ _ (by decide) rfl
  · exact wellShapedResult_ite _ _ _ (by decide) rfl
  · exact wellShapedResult_ite _ _ _ (by decide) rfl
  · exact wellShapedResult_ite _ _ _ (by decide) rfl
  · exact wellShapedResult_ite _ _ _ (by decide) rfl
  · exact wellShapedResult_ite _ _ _ (by decide) rfl
  · exact wellShapedResult_ite _ _ _ (by decide) rfl
